import Mathlib

/-!
Verification of the behaviour of `opsview-html-email.js`.

The script is embedded shallowly:

* the process environment is a finite association list of variable
  names to string values (`Env`), looked up like a JS object with
  first-binding-wins semantics;
* JavaScript truthiness of a string-or-`undefined` value is
  `jsTruthy` (`undefined` and the empty string are falsy);
* the `NAGIOS_`-filtered snapshot built at lines 77–81 of the source
  is `nagios`;
* the type classification at lines 92–100 is `alertType`;
* `util.format` substitution of a possibly-`undefined` value through
  `%s` is `fmtS` (Node prints the text `undefined` for `undefined`);
* the default subject switch at lines 119–143 is `defaultSubject`;
* the external effects of the two-stage template rendering (the EJS
  renderer and the synchronous file read) are an oracle
  `TemplateWorld`; the message computation at lines 152–175 is
  `inlineMessage` / `finalMessage`;
* the whole post-argument-parsing run (type check, recipient check,
  header emission, message emission, exit code) is `run`, producing a
  `RunResult` that records the exit status and the sequence of
  `console.log` / `console.error` calls.
-/

namespace OpsviewHtmlEmail

/-- A process environment / JS object: an association list from
variable names to string values.  Lookup takes the first binding. -/
abbrev Env := List (String × String)

/-- Property access `obj[k]`: `some v` if bound, `none` (undefined)
otherwise. -/
def envGet (e : Env) (k : String) : Option String :=
  e.lookup k

/-- JavaScript truthiness of a string-or-undefined value:
`undefined` and the empty string are falsy, every other string is
truthy. -/
def jsTruthy : Option String → Bool
  | none => false
  | some s => s ≠ ""

/-- `key.indexOf('NAGIOS_') === 0` (source line 79): the name starts
with the seven characters `NAGIOS_`. -/
def isNagiosKey (k : String) : Bool :=
  match k.data with
  | 'N' :: 'A' :: 'G' :: 'I' :: 'O' :: 'S' :: '_' :: _ => true
  | _ => false

/-- `key.replace(/^NAGIOS_/, '')` (source line 80): drop the leading
`NAGIOS_` when present, otherwise leave the name unchanged. -/
def stripNagios (k : String) : String :=
  if isNagiosKey k then String.mk (k.data.drop 7) else k

/-- The environment snapshot (source lines 77–81): keep exactly the
`NAGIOS_`-prefixed variables, strip the prefix, carry the value. -/
def nagios (e : Env) : Env :=
  e.filterMap (fun kv =>
    if isNagiosKey kv.1 then some (stripNagios kv.1, kv.2) else none)

/-- The type classification (source lines 92–100):
`host` unless `process.env.NAGIOS_SERVICEATTEMPT` is truthy, then
`ack` if the snapshot's `NOTIFICATIONAUTHOR` is truthy, else
`service`. -/
def alertType (e : Env) : String :=
  if !(jsTruthy (envGet e "NAGIOS_SERVICEATTEMPT")) then "host"
  else if jsTruthy (envGet (nagios e) "NOTIFICATIONAUTHOR") then "ack"
  else "service"

/-- `util.format('%s', v)` on a string-or-undefined value: Node
renders `undefined` as the literal text `undefined`. -/
def fmtS : Option String → String
  | none => "undefined"
  | some s => s

/-- The default subject switch (source lines 119–143). -/
def defaultSubject (ty : String) (nag : Env) : String :=
  match ty with
  | "host" =>
      fmtS (envGet nag "HOSTADDRESS") ++ " is " ++ fmtS (envGet nag "HOSTSTATE")
  | "service" =>
      fmtS (envGet nag "SERVICESTATE") ++ ": " ++ fmtS (envGet nag "HOSTADDRESS")
        ++ " - " ++ fmtS (envGet nag "SERVICEDESC")
  | "ack" =>
      fmtS (envGet nag "NOTIFICATIONTYPE") ++ ": " ++ fmtS (envGet nag "HOSTADDRESS")
        ++ " - " ++ fmtS (envGet nag "SERVICEDESC")
  | _ => "unknown type - " ++ ty

/-- Subject resolution (source lines 119 and 148): the `-s` flag value
when truthy, otherwise the default subject for the type. -/
def emailSubject (flagSubject : Option String) (ty : String) (nag : Env) : String :=
  if jsTruthy flagSubject then flagSubject.getD "" else defaultSubject ty nag

/-- Recipient resolution (source lines 54 and 59): the `-a` flag value
when given, otherwise `process.env.NAGIOS_CONTACTEMAIL`. -/
def resolveTo (flagTo : Option String) (e : Env) : Option String :=
  match flagTo with
  | some a => some a
  | none => envGet e "NAGIOS_CONTACTEMAIL"

/-- The usage text (source lines 22–38), as the single string the
script prints with one `console.log` / `console.error` call. -/
def usageText : String :=
  String.intercalate "\n"
    [ "Usage: opsview-html-email [options] [arg1] [arg2] ...",
      "",
      "This command is meant to be run from nagios when a service or host",
      "experiences problems.  The output will be suitable for passing to",
      "a mail program that takes raw email data like `mailx -t`",
      "",
      "Options",
      "  -a, --address <email>      the email address to send mail to, defaults to env NAGIOS_CONTACTEMAIL",
      "  -h, --help                 print this message and exit",
      "  -s, --subject <subject>    the email subject to use, defaults to _subject for the host/service, or default nagios subject",
      "  -t, --template-dir <dir>   dir to find ejs template files, defaults to builtin templates",
      "  -u, --updates              check for available updates on npm",
      "  -v, --version              print the version number and exit" ]

/-- `path.join(opts.templatedir, type + '.html.ejs')` (source line
167). -/
def templfile (td ty : String) : String :=
  td ++ "/" ++ ty ++ ".html.ejs"

/-- The fixed inline fallback template (source line 156): an HTML
`pre` block holding `d`, the pretty-printed JSON of the notification
context (source line 157). -/
def inlineTemplate : String :=
  "<html><body><pre><%= d %></pre></body></html>"

/-- Oracle for the script's external collaborators: `render t` is the
outcome of `ejs.render(t, data)` on template text `t` against the
notification context (source lines 159 and 170), and `readFile f` is
the outcome of `fs.readFileSync(f, 'utf-8')` (source line 169).
`Except.error e` carries the thrown error's `.message`. -/
structure TemplateWorld where
  render : String → Except String String
  readFile : String → Except String String

/-- Stage 1 of the message computation (source lines 152–163): render
the inline fallback template, or on failure use the formatted error
text. -/
def inlineMessage (w : TemplateWorld) : String :=
  match w.render inlineTemplate with
  | .ok m => m
  | .error e => "error rendering default template!: " ++ e

/-- The `console.error` output of stage 1 (source line 162). -/
def inlineErrors (w : TemplateWorld) : List String :=
  match w.render inlineTemplate with
  | .ok _ => []
  | .error e => ["error rendering default template!: " ++ e]

/-- Stage 2 (source lines 168–170): read `<templatedir>/<type>.html.ejs`
and render it; either step may fail. -/
def fileStage (td ty : String) (w : TemplateWorld) : Except String String :=
  match w.readFile (templfile td ty) with
  | .ok t => w.render t
  | .error e => .error e

/-- The final message (source lines 168–175): a successful stage-2
result overwrites the message, any stage-2 failure retains stage 1. -/
def finalMessage (td ty : String) (w : TemplateWorld) : String :=
  match fileStage td ty w with
  | .ok m => m
  | .error _ => inlineMessage w

/-- The `console.error` output of stage 2 (source line 174). -/
def fileErrors (td ty : String) (w : TemplateWorld) : List String :=
  match fileStage td ty w with
  | .ok _ => []
  | .error e => ["template " ++ templfile td ty ++ " error: " ++ e]

/-- Observable outcome of a run: the exit status, the list of
`console.log` outputs (standard output) and the list of
`console.error` outputs (standard error), in order. -/
structure RunResult where
  exitCode : Nat
  stdout : List String
  stderr : List String
deriving DecidableEq, Repr

/-- The post-argument-parsing run of the script (source lines 77–178):
classify the type, check it (lines 102–107), check the recipient
(lines 110–115), resolve the subject, print the headers, compute and
print the message. -/
def run (flagTo flagSubject : Option String) (td : String) (e : Env)
    (w : TemplateWorld) : RunResult :=
  let ty := alertType e
  let toAddr? := resolveTo flagTo e
  if !(jsTruthy (some ty)) then
    ⟨1, [], ["a type must be specified as the first argument!", "", usageText]⟩
  else if !(jsTruthy toAddr?) then
    ⟨1, [], ["env NAGIOS_CONTACTEMAIL or `-a <address>` must be supplied!", "", usageText]⟩
  else
    let toAddr := toAddr?.getD ""
    let subj := emailSubject flagSubject ty (nagios e)
    ⟨0,
     ["To: " ++ toAddr, "Reply-To: " ++ toAddr, "Subject: " ++ subj,
      "Content-Type: text/html", "", finalMessage td ty w],
     inlineErrors w ++ fileErrors td ty w⟩

/-! ### Helper lemmas about the snapshot -/

/-- A name passes the prefix test exactly when it is `NAGIOS_`
followed by some remainder. -/
lemma isNagiosKey_iff (k : String) :
    isNagiosKey k = true ↔ ∃ r : String, k = "NAGIOS_" ++ r := by
  obtain ⟨d⟩ := k
  constructor
  · intro h
    unfold isNagiosKey at h
    split at h
    · next t heq =>
        refine ⟨⟨t⟩, String.ext ?_⟩
        simpa using heq
    · exact absurd h (by simp)
  · rintro ⟨⟨t⟩, h⟩
    cases h
    rfl

/-- Stripping after appending the prefix recovers the remainder. -/
lemma stripNagios_append (r : String) : stripNagios ("NAGIOS_" ++ r) = r := by
  obtain ⟨t⟩ := r
  rfl

/-- Appending the fixed prefix is injective. -/
lemma nagiosKey_append_inj {a b : String}
    (h : "NAGIOS_" ++ a = "NAGIOS_" ++ b) : a = b := by
  obtain ⟨ta⟩ := a
  obtain ⟨tb⟩ := b
  apply String.ext
  have hd := congrArg String.data h
  simpa using hd

/-- `nagios` on a cons. -/
lemma nagios_cons (k0 v0 : String) (t : Env) :
    nagios ((k0, v0) :: t)
      = if isNagiosKey k0 then (stripNagios k0, v0) :: nagios t else nagios t := by
  by_cases h : isNagiosKey k0 = true
  · simp [nagios, List.filterMap_cons, h]
  · simp [nagios, List.filterMap_cons, h]

/-- Looking a key up in the snapshot is looking the prefixed name up
in the full environment. -/
lemma envGet_nagios (e : Env) (k : String) :
    envGet (nagios e) k = envGet e ("NAGIOS_" ++ k) := by
  induction e with
  | nil => rfl
  | cons kv t ih =>
    obtain ⟨k0, v0⟩ := kv
    rw [nagios_cons]
    by_cases hpre : isNagiosKey k0 = true
    · obtain ⟨r, rfl⟩ := (isNagiosKey_iff k0).mp hpre
      rw [if_pos hpre, stripNagios_append]
      by_cases hk : k = r
      · subst hk
        simp [envGet, List.lookup]
      · have hne : ("NAGIOS_" ++ k) ≠ ("NAGIOS_" ++ r) :=
          fun h => hk (nagiosKey_append_inj h)
        have h1 : (k == r) = false := beq_eq_false_iff_ne.mpr hk
        have h2 : (("NAGIOS_" ++ k) == ("NAGIOS_" ++ r)) = false :=
          beq_eq_false_iff_ne.mpr hne
        simp only [envGet, List.lookup, h1, h2]
        exact ih
    · have hne : ("NAGIOS_" ++ k) ≠ k0 := by
        intro h
        exact hpre ((isNagiosKey_iff k0).mpr ⟨k, h.symm⟩)
      have h2 : (("NAGIOS_" ++ k) == k0) = false := beq_eq_false_iff_ne.mpr hne
      rw [if_neg hpre]
      simp only [envGet, List.lookup, h2]
      exact ih

/-- Truthiness of a bound non-empty value. -/
lemma jsTruthy_some_ne {s : String} (h : s ≠ "") : jsTruthy (some s) = true := by
  simp [jsTruthy, h]

/-- Truthiness of an absent value. -/
lemma jsTruthy_none_eq : jsTruthy (none : Option String) = false := rfl

/-- The three type strings are truthy. -/
lemma jsTruthy_host : jsTruthy (some "host") = true := rfl

/-- The three type strings are truthy. -/
lemma jsTruthy_ack : jsTruthy (some "ack") = true := rfl

/-- The three type strings are truthy. -/
lemma jsTruthy_service : jsTruthy (some "service") = true := rfl

/-- The classification can only produce the three fixed strings. -/
lemma alertType_cases (e : Env) :
    alertType e = "host" ∨ alertType e = "ack" ∨ alertType e = "service" := by
  unfold alertType
  split
  · exact Or.inl rfl
  · split
    · exact Or.inr (Or.inl rfl)
    · exact Or.inr (Or.inr rfl)

/-- The classification result is a truthy (non-empty) string. -/
lemma alertType_truthy (e : Env) : jsTruthy (some (alertType e)) = true := by
  rcases alertType_cases e with h | h | h <;> rw [h] <;> rfl

/-- The run with the dead type-check branch (source lines 102–107)
removed: used to state that the branch is unreachable. -/
def runTypeCheckRemoved (flagTo flagSubject : Option String) (td : String)
    (e : Env) (w : TemplateWorld) : RunResult :=
  let ty := alertType e
  let toAddr? := resolveTo flagTo e
  if !(jsTruthy toAddr?) then
    ⟨1, [], ["env NAGIOS_CONTACTEMAIL or `-a <address>` must be supplied!", "", usageText]⟩
  else
    let toAddr := toAddr?.getD ""
    let subj := emailSubject flagSubject ty (nagios e)
    ⟨0,
     ["To: " ++ toAddr, "Reply-To: " ++ toAddr, "Subject: " ++ subj,
      "Content-Type: text/html", "", finalMessage td ty w],
     inlineErrors w ++ fileErrors td ty w⟩

/-! ### Claims about the type classification -/

/-- **C7.** The snapshot is exactly the prefix-filtered, renamed
environment: a pair `(k, v)` is in the snapshot iff the pair
`(NAGIOS_k, v)` is in the environment — the value is carried over
unchanged and no unprefixed variable contributes. -/
theorem nagios_mem_iff (e : Env) (k v : String) :
    (k, v) ∈ nagios e ↔ ("NAGIOS_" ++ k, v) ∈ e := by
  simp only [nagios, List.mem_filterMap]
  constructor
  · rintro ⟨⟨k0, v0⟩, hmem, hf⟩
    by_cases hpre : isNagiosKey k0 = true
    · obtain ⟨r, rfl⟩ := (isNagiosKey_iff k0).mp hpre
      rw [if_pos hpre, stripNagios_append] at hf
      simp only [Option.some.injEq, Prod.mk.injEq] at hf
      obtain ⟨rfl, rfl⟩ := hf
      exact hmem
    · rw [if_neg hpre] at hf
      exact absurd hf (by simp)
  · intro hmem
    refine ⟨("NAGIOS_" ++ k, v), hmem, ?_⟩
    have hpre : isNagiosKey ("NAGIOS_" ++ k) = true :=
      (isNagiosKey_iff _).mpr ⟨k, rfl⟩
    rw [if_pos hpre, stripNagios_append]

/-- Concrete instance of `nagios_mem_iff`. -/
theorem nagios_mem_iff_witness :
    ("HOSTSTATE", "DOWN") ∈ nagios [("PATH", "/bin"), ("NAGIOS_HOSTSTATE", "DOWN")] :=
  (nagios_mem_iff [("PATH", "/bin"), ("NAGIOS_HOSTSTATE", "DOWN")] "HOSTSTATE" "DOWN").mpr
    (by decide)

/-- **C1.** If the snapshot has no `SERVICEATTEMPT` key, the type is
`host`, whatever else the environment contains. -/
theorem alertType_host_of_no_serviceattempt (e : Env)
    (h : envGet (nagios e) "SERVICEATTEMPT" = none) :
    alertType e = "host" := by
  rw [envGet_nagios] at h
  have hk : ("NAGIOS_" ++ "SERVICEATTEMPT" : String) = "NAGIOS_SERVICEATTEMPT" := rfl
  rw [hk] at h
  simp [alertType, h, jsTruthy]

/-- Concrete instance of `alertType_host_of_no_serviceattempt`. -/
theorem alertType_host_of_no_serviceattempt_witness :
    envGet (nagios [("PATH", "/bin"), ("NAGIOS_HOSTSTATE", "DOWN")]) "SERVICEATTEMPT" = none
      ∧ alertType [("PATH", "/bin"), ("NAGIOS_HOSTSTATE", "DOWN")] = "host" :=
  ⟨by decide, alertType_host_of_no_serviceattempt _ (by decide)⟩

/-- **C2, as stated, is false**: with `NAGIOS_SERVICEATTEMPT` set to
the empty string the snapshot does contain a `SERVICEATTEMPT` key and
no author key, yet the type is `host`, not `service` — the code tests
truthiness of the value, not key presence. -/
theorem serviceattempt_presence_counterexample :
    (envGet (nagios [("NAGIOS_SERVICEATTEMPT", "")]) "SERVICEATTEMPT").isSome = true
      ∧ envGet (nagios [("NAGIOS_SERVICEATTEMPT", "")]) "NOTIFICATIONAUTHOR" = none
      ∧ alertType [("NAGIOS_SERVICEATTEMPT", "")] ≠ "service"
      ∧ alertType [("NAGIOS_SERVICEATTEMPT", "")] = "host" := by
  refine ⟨by decide, by decide, ?_, by decide⟩
  decide

/-- **C2, amended.** If the snapshot's `SERVICEATTEMPT` value is
truthy (present and non-empty), the type is `ack` when the snapshot's
`NOTIFICATIONAUTHOR` value is truthy, and `service` when no author key
is present. -/
theorem alertType_of_truthy_serviceattempt (e : Env)
    (h : jsTruthy (envGet (nagios e) "SERVICEATTEMPT") = true) :
    (jsTruthy (envGet (nagios e) "NOTIFICATIONAUTHOR") = true → alertType e = "ack")
      ∧ (envGet (nagios e) "NOTIFICATIONAUTHOR" = none → alertType e = "service") := by
  rw [envGet_nagios] at h
  have hk : ("NAGIOS_" ++ "SERVICEATTEMPT" : String) = "NAGIOS_SERVICEATTEMPT" := rfl
  rw [hk] at h
  constructor
  · intro ha
    simp [alertType, h, ha]
  · intro ha
    have hnone : jsTruthy (none : Option String) = false := rfl
    simp [alertType, h, ha, hnone]

/-- Concrete instance of `alertType_of_truthy_serviceattempt`. -/
theorem alertType_of_truthy_serviceattempt_witness :
    jsTruthy (envGet (nagios [("NAGIOS_SERVICEATTEMPT", "1"), ("NAGIOS_NOTIFICATIONAUTHOR", "bob")])
        "SERVICEATTEMPT") = true
      ∧ alertType [("NAGIOS_SERVICEATTEMPT", "1"), ("NAGIOS_NOTIFICATIONAUTHOR", "bob")] = "ack" :=
  ⟨by decide,
   (alertType_of_truthy_serviceattempt _ (by decide)).1 (by decide)⟩

/-- **C10.** With `NAGIOS_SERVICEATTEMPT` bound to the empty string —
the key exists in the snapshot — the type still resolves to `host`,
exactly as when the variable is absent: classification tests
truthiness of the value, not key presence. -/
theorem alertType_host_of_empty_serviceattempt (e : Env)
    (h : envGet (nagios e) "SERVICEATTEMPT" = some "") :
    alertType e = "host" := by
  rw [envGet_nagios] at h
  have hk : ("NAGIOS_" ++ "SERVICEATTEMPT" : String) = "NAGIOS_SERVICEATTEMPT" := rfl
  rw [hk] at h
  simp [alertType, h, jsTruthy]

/-- Concrete instance of `alertType_host_of_empty_serviceattempt`. -/
theorem alertType_host_of_empty_serviceattempt_witness :
    envGet (nagios [("NAGIOS_SERVICEATTEMPT", ""), ("NAGIOS_NOTIFICATIONAUTHOR", "bob")])
        "SERVICEATTEMPT" = some ""
      ∧ alertType [("NAGIOS_SERVICEATTEMPT", ""), ("NAGIOS_NOTIFICATIONAUTHOR", "bob")] = "host" :=
  ⟨by decide, alertType_host_of_empty_serviceattempt _ (by decide)⟩

/-- **C8.** The three-way rule always assigns one of the three types,
and the assigned type is a truthy (non-empty) string, so the guard of
the fatal `a type must be specified` branch is always false: running
the script is the same as running it with that branch removed. -/
theorem alertType_always_assigned :
    (∀ e : Env, jsTruthy (some (alertType e)) = true
      ∧ (alertType e = "host" ∨ alertType e = "ack" ∨ alertType e = "service"))
    ∧ ∀ (flagTo flagSubject : Option String) (td : String) (e : Env) (w : TemplateWorld),
        run flagTo flagSubject td e w = runTypeCheckRemoved flagTo flagSubject td e w := by
  refine ⟨fun e => ⟨alertType_truthy e, alertType_cases e⟩, ?_⟩
  intro flagTo flagSubject td e w
  simp [run, runTypeCheckRemoved, alertType_truthy e]

/-! ### Claims about recipients, subjects, output and the message -/

/-- **C3.** With no `-a` flag and no truthy `NAGIOS_CONTACTEMAIL`, the
run exits with status 1, prints the error and the usage text to the
error stream, and prints nothing on standard output. -/
theorem missing_recipient_fails (flagSubject : Option String) (td : String)
    (e : Env) (w : TemplateWorld)
    (h : jsTruthy (envGet e "NAGIOS_CONTACTEMAIL") = false) :
    run none flagSubject td e w
      = ⟨1, [], ["env NAGIOS_CONTACTEMAIL or `-a <address>` must be supplied!",
                 "", usageText]⟩ := by
  simp [run, resolveTo, h, alertType_truthy e]

/-- Concrete instance of `missing_recipient_fails`. -/
theorem missing_recipient_fails_witness :
    run none none "/t" [("PATH", "/bin")]
        ⟨fun _ => Except.ok "B", fun _ => Except.error "ENOENT"⟩
      = ⟨1, [], ["env NAGIOS_CONTACTEMAIL or `-a <address>` must be supplied!",
                 "", usageText]⟩ :=
  missing_recipient_fails none "/t" [("PATH", "/bin")] _ (by decide)

/-- **C6.** On every successful run standard output is exactly the
`To:`, `Reply-To:` (same address), `Subject:` and `Content-Type:`
lines, a blank line, and the rendered message body, in that order,
with nothing after the body; the exit status is 0. -/
theorem run_success_stdout (flagTo flagSubject : Option String) (td : String)
    (e : Env) (w : TemplateWorld) (addr : String)
    (h : resolveTo flagTo e = some addr) (ha : addr ≠ "") :
    (run flagTo flagSubject td e w).exitCode = 0
      ∧ (run flagTo flagSubject td e w).stdout
          = ["To: " ++ addr, "Reply-To: " ++ addr,
             "Subject: " ++ emailSubject flagSubject (alertType e) (nagios e),
             "Content-Type: text/html", "", finalMessage td (alertType e) w] := by
  constructor <;> simp [run, h, jsTruthy_some_ne ha, alertType_truthy e]

/-- Concrete instance of `run_success_stdout`. -/
theorem run_success_stdout_witness :
    (run (some "x@y") none "/t" []
        ⟨fun _ => Except.ok "B", fun _ => Except.error "ENOENT"⟩).exitCode = 0
      ∧ (run (some "x@y") none "/t" []
          ⟨fun _ => Except.ok "B", fun _ => Except.error "ENOENT"⟩).stdout
        = ["To: x@y", "Reply-To: x@y", "Subject: undefined is undefined",
           "Content-Type: text/html", "", "B"] :=
  run_success_stdout (some "x@y") none "/t" [] _ "x@y" rfl (by decide)

/-- **C5.** When the `-s` flag is absent the emitted `Subject:` header
is computed from the snapshot by type: `host` gives
`<HOSTADDRESS> is <HOSTSTATE>`, `service` gives
`<SERVICESTATE>: <HOSTADDRESS> - <SERVICEDESC>`, and `ack` gives
`<NOTIFICATIONTYPE>: <HOSTADDRESS> - <SERVICEDESC>`. -/
theorem default_subjects_by_type :
    (∀ (td : String) (e : Env) (w : TemplateWorld) (ca a hs : String),
        envGet e "NAGIOS_CONTACTEMAIL" = some ca → ca ≠ "" →
        alertType e = "host" →
        envGet (nagios e) "HOSTADDRESS" = some a →
        envGet (nagios e) "HOSTSTATE" = some hs →
        (run none none td e w).stdout[2]?
          = some ("Subject: " ++ (a ++ " is " ++ hs)))
    ∧ (∀ (td : String) (e : Env) (w : TemplateWorld) (ca ss a sd : String),
        envGet e "NAGIOS_CONTACTEMAIL" = some ca → ca ≠ "" →
        alertType e = "service" →
        envGet (nagios e) "SERVICESTATE" = some ss →
        envGet (nagios e) "HOSTADDRESS" = some a →
        envGet (nagios e) "SERVICEDESC" = some sd →
        (run none none td e w).stdout[2]?
          = some ("Subject: " ++ (ss ++ ": " ++ a ++ " - " ++ sd)))
    ∧ (∀ (td : String) (e : Env) (w : TemplateWorld) (ca nt a sd : String),
        envGet e "NAGIOS_CONTACTEMAIL" = some ca → ca ≠ "" →
        alertType e = "ack" →
        envGet (nagios e) "NOTIFICATIONTYPE" = some nt →
        envGet (nagios e) "HOSTADDRESS" = some a →
        envGet (nagios e) "SERVICEDESC" = some sd →
        (run none none td e w).stdout[2]?
          = some ("Subject: " ++ (nt ++ ": " ++ a ++ " - " ++ sd))) := by
  refine ⟨?_, ?_, ?_⟩
  · intro td e w ca a hs h1 h2 h3 h4 h5
    simp [run, resolveTo, emailSubject, defaultSubject, fmtS, jsTruthy_none_eq,
      alertType_truthy e, jsTruthy_some_ne h2, jsTruthy_host, h1, h3, h4, h5]
  · intro td e w ca ss a sd h1 h2 h3 h4 h5 h6
    simp [run, resolveTo, emailSubject, defaultSubject, fmtS, jsTruthy_none_eq,
      alertType_truthy e, jsTruthy_some_ne h2, jsTruthy_service, h1, h3, h4, h5, h6]
  · intro td e w ca nt a sd h1 h2 h3 h4 h5 h6
    simp [run, resolveTo, emailSubject, defaultSubject, fmtS, jsTruthy_none_eq,
      alertType_truthy e, jsTruthy_some_ne h2, jsTruthy_ack, h1, h3, h4, h5, h6]

/-- Concrete instances of `default_subjects_by_type`: the two example
scenarios of the claim. -/
theorem default_subjects_by_type_witness :
    (run none none "/t"
        [("NAGIOS_CONTACTEMAIL", "a@b.com"), ("NAGIOS_HOSTADDRESS", "web1"),
         ("NAGIOS_HOSTSTATE", "DOWN")]
        ⟨fun _ => Except.ok "B", fun _ => Except.error "ENOENT"⟩).stdout[2]?
      = some "Subject: web1 is DOWN"
    ∧ (run none none "/t"
        [("NAGIOS_CONTACTEMAIL", "a@b.com"), ("NAGIOS_SERVICEATTEMPT", "1"),
         ("NAGIOS_SERVICESTATE", "CRITICAL"), ("NAGIOS_HOSTADDRESS", "web1"),
         ("NAGIOS_SERVICEDESC", "disk")]
        ⟨fun _ => Except.ok "B", fun _ => Except.error "ENOENT"⟩).stdout[2]?
      = some "Subject: CRITICAL: web1 - disk" :=
  ⟨default_subjects_by_type.1 "/t" _ _ "a@b.com" "web1" "DOWN"
      (by decide) (by decide) (by decide) (by decide) (by decide),
   default_subjects_by_type.2.1 "/t" _ _ "a@b.com" "CRITICAL" "web1" "disk"
      (by decide) (by decide) (by decide) (by decide) (by decide) (by decide)⟩

/-- **C9, as stated, is false**: a missing snapshot key is rendered by
`util.format` as the text `undefined`, not as empty text — the default
host subject over an empty snapshot is `undefined is undefined`, not
` is `. -/
theorem subject_empty_substitution_counterexample :
    defaultSubject "host" (nagios [("PATH", "/bin")]) = "undefined is undefined"
      ∧ defaultSubject "host" (nagios [("PATH", "/bin")]) ≠ " is " := by
  constructor
  · decide
  · decide

/-- **C9, amended.** Building the default subject never fails on
missing snapshot keys: each missing key is substituted as the literal
text `undefined` rather than raising an error. -/
theorem defaultSubject_missing_keys_undefined (nag : Env) :
    (envGet nag "HOSTADDRESS" = none → envGet nag "HOSTSTATE" = none →
        defaultSubject "host" nag = "undefined is undefined")
    ∧ (∀ a, envGet nag "HOSTADDRESS" = some a → envGet nag "HOSTSTATE" = none →
        defaultSubject "host" nag = a ++ " is " ++ "undefined")
    ∧ (envGet nag "SERVICESTATE" = none → envGet nag "HOSTADDRESS" = none →
        envGet nag "SERVICEDESC" = none →
        defaultSubject "service" nag = "undefined: undefined - undefined")
    ∧ (envGet nag "NOTIFICATIONTYPE" = none → envGet nag "HOSTADDRESS" = none →
        envGet nag "SERVICEDESC" = none →
        defaultSubject "ack" nag = "undefined: undefined - undefined") := by
  refine ⟨?_, ?_, ?_, ?_⟩
  · intro h1 h2
    simp [defaultSubject, fmtS, h1, h2]
  · intro a h1 h2
    simp [defaultSubject, fmtS, h1, h2]
  · intro h1 h2 h3
    simp [defaultSubject, fmtS, h1, h2, h3]
  · intro h1 h2 h3
    simp [defaultSubject, fmtS, h1, h2, h3]

/-- Concrete instance of `defaultSubject_missing_keys_undefined`. -/
theorem defaultSubject_missing_keys_undefined_witness :
    defaultSubject "host" (nagios [("NAGIOS_SERVICEATTEMPT", "1")])
      = "undefined is undefined" :=
  (defaultSubject_missing_keys_undefined _).1 (by decide) (by decide)

/-- **C4.** The message is always produced: stage 1 renders the inline
fallback template into the message (on failure the error text itself
becomes the message and is logged); stage 2 only overwrites it when
reading and rendering `<templatedir>/<type>.html.ejs` both succeed,
and any stage-2 failure is logged to the error stream while the
stage-1 message is retained; the successful run always emits the
resulting message as the last element of standard output. -/
theorem message_fallback (td ty : String) (w : TemplateWorld) :
    (∀ m, w.render inlineTemplate = .ok m → inlineMessage w = m ∧ inlineErrors w = [])
    ∧ (∀ er, w.render inlineTemplate = .error er →
        inlineMessage w = "error rendering default template!: " ++ er
          ∧ inlineErrors w = ["error rendering default template!: " ++ er])
    ∧ (∀ t m, w.readFile (templfile td ty) = .ok t → w.render t = .ok m →
        finalMessage td ty w = m ∧ fileErrors td ty w = [])
    ∧ (∀ er, w.readFile (templfile td ty) = .error er →
        finalMessage td ty w = inlineMessage w
          ∧ fileErrors td ty w = ["template " ++ templfile td ty ++ " error: " ++ er])
    ∧ (∀ t er, w.readFile (templfile td ty) = .ok t → w.render t = .error er →
        finalMessage td ty w = inlineMessage w
          ∧ fileErrors td ty w = ["template " ++ templfile td ty ++ " error: " ++ er])
    ∧ (∀ (flagTo flagSubject : Option String) (e : Env) (addr : String),
        resolveTo flagTo e = some addr → addr ≠ "" →
        (run flagTo flagSubject td e w).stdout.getLast?
          = some (finalMessage td (alertType e) w)) := by
  refine ⟨?_, ?_, ?_, ?_, ?_, ?_⟩
  · intro m h
    simp [inlineMessage, inlineErrors, h]
  · intro er h
    simp [inlineMessage, inlineErrors, h]
  · intro t m h1 h2
    simp [finalMessage, fileErrors, fileStage, h1, h2]
  · intro er h
    simp [finalMessage, fileErrors, fileStage, h]
  · intro t er h1 h2
    simp [finalMessage, fileErrors, fileStage, h1, h2]
  · intro flagTo flagSubject e addr h ha
    simp [run, h, jsTruthy_some_ne ha, alertType_truthy e, List.getLast?]

/-- Concrete instance of `message_fallback`: a missing template file
leaves the successfully rendered inline fallback as the message. -/
theorem message_fallback_witness :
    finalMessage "/t" "host"
        ⟨fun _ => Except.ok "fallback", fun _ => Except.error "ENOENT"⟩
      = "fallback" := by
  have h := message_fallback "/t" "host"
    ⟨fun _ => Except.ok "fallback", fun _ => Except.error "ENOENT"⟩
  exact ((h.2.2.2.1 "ENOENT" rfl).1).trans (h.1 "fallback" rfl).1

end OpsviewHtmlEmail
